import Mathlib

/-!
Verification of the pwmenu PipeWire control-plane core.

The Rust sources under src/pw are shallowly embedded: HashMaps become
association lists with lookup semantics (first binding wins; the insert
operation removes the old binding, so reachable maps have unique keys),
f32 volumes become rationals where only selection logic matters and real
numbers where the cubic scaling law is analysed, and the registry event
callbacks become explicit structural events applied to a store value.
Fields of the Rust records that none of the modelled functions read
(proxies, listeners, presentation strings) are omitted.
-/

namespace Pwmenu

/-- Lookup in an association-list map (models HashMap::get). -/
def mlookup {α : Type} (k : Nat) : List (Nat × α) → Option α
  | [] => none
  | kv :: rest => if kv.1 = k then some kv.2 else mlookup k rest

/-- Remove all bindings of a key (models HashMap::remove). -/
def mremove {α : Type} (k : Nat) (m : List (Nat × α)) : List (Nat × α) :=
  m.filter (fun kv => !decide (kv.1 = k))

/-- Insert or replace a binding (models HashMap::insert and in-place get_mut updates). -/
def minsert {α : Type} (k : Nat) (v : α) (m : List (Nat × α)) : List (Nat × α) :=
  (k, v) :: mremove k m

/-- Node media classes, from nodes.rs NodeType. -/
inductive NodeTypeM where
  | audioSink
  | audioSource
  | audioDuplex
  | streamOutputAudio
  | streamInputAudio
  | audioVirtual
  | unknownNode
deriving DecidableEq, Repr

/-- Device classes, from devices.rs DeviceType. -/
inductive DeviceTypeM where
  | sinkDevice
  | sourceDevice
  | unknownDevice
deriving DecidableEq, Repr

/-- Port directions, from links.rs PortDirection. -/
inductive PortDirectionM where
  | input
  | output
deriving DecidableEq, Repr

/-- A selectable card profile, from devices.rs Profile. -/
structure ProfileM where
  index : Nat
  name : String
  description : String
  priority : Nat
  available : String
deriving DecidableEq, Repr

/-- Profile::is_available from devices.rs. -/
def ProfileM.is_available (p : ProfileM) : Bool :=
  decide (p.available = "yes") || decide (p.available = "unknown")

/-- Profile::is_off from devices.rs. -/
def ProfileM.is_off (p : ProfileM) : Bool :=
  decide (p.name = "off")

/-- Per-direction route state, from devices.rs RouteInfo. -/
structure RouteInfoM where
  index : Option Int := none
  device : Option Int := none
  volume : Option ℚ := none
  muted : Option Bool := none
deriving DecidableEq, Repr

/-- A node record, from nodes.rs NodeInternal (proxy/listener fields omitted). -/
structure NodeM where
  name : String
  media_class : Option String := none
  node_type : NodeTypeM := NodeTypeM.unknownNode
  volume : ℚ := 1
  muted : Bool := false
  is_default : Bool := false
  device_id : Option Nat := none
  ports : List Nat := []
  has_received_params : Bool := false
deriving DecidableEq, Repr

/-- A device record, from devices.rs DeviceInternal (proxy/listener fields omitted). -/
structure DeviceM where
  name : String
  device_type : DeviceTypeM := DeviceTypeM.unknownDevice
  nodes : List Nat := []
  profiles : List ProfileM := []
  current_profile_index : Option Nat := none
  has_route_volume : Bool := false
  output_route : RouteInfoM := {}
  input_route : RouteInfoM := {}
deriving DecidableEq, Repr

/-- A port record, from links.rs PortInternal (proxy omitted; the map key is the id). -/
structure PortM where
  name : String := ""
  node_id : Nat
  direction : PortDirectionM
  channel : String := "unknown"
  links : List Nat := []
deriving DecidableEq, Repr

/-- A link record, from links.rs LinkInternal (proxy omitted; the map key is the id). -/
structure LinkM where
  output_node : Nat
  output_port : Nat
  input_node : Nat
  input_port : Nat
deriving DecidableEq, Repr

/-- The graph store, from graph.rs Store (connection/sync bookkeeping omitted). -/
structure StoreM where
  nodes : List (Nat × NodeM) := []
  devices : List (Nat × DeviceM) := []
  ports : List (Nat × PortM) := []
  links : List (Nat × LinkM) := []
  default_sink : Option Nat := none
  default_source : Option Nat := none
deriving DecidableEq, Repr

/-- VolumeResolver::resolve_effective_volume from volume.rs: route-level state wins
exactly when the device exposes route volume and both route fields are known. -/
def resolve_effective_volume (route_volume : Option ℚ) (route_muted : Option Bool)
    (node_volume : ℚ) (node_muted : Bool) (has_route_volume : Bool) : ℚ × Bool :=
  if has_route_volume then
    match route_volume, route_muted with
    | some vol, some muted => (vol, muted)
    | _, _ => (node_volume, node_muted)
  else
    (node_volume, node_muted)

/-- VolumeResolver::apply_cubic_scaling from volume.rs, with f32 idealised as a real. -/
noncomputable def apply_cubic_scaling (raw_volume : ℝ) : ℝ :=
  if raw_volume ≤ 0 then 0 else raw_volume ^ ((1 : ℝ) / 3)

/-- VolumeResolver::apply_inverse_cubic_scaling from volume.rs, with f32 idealised as a real. -/
noncomputable def apply_inverse_cubic_scaling (volume : ℝ) : ℝ :=
  if volume ≤ 0 then 0 else volume ^ ((3 : ℝ))

/-- Store::get_device_profiles from devices.rs: keep available, non-off profiles. -/
def get_device_profiles (s : StoreM) (device_id : Nat) : List ProfileM :=
  match mlookup device_id s.devices with
  | some device => device.profiles.filter (fun p => p.is_available && !p.is_off)
  | none => []

/-- Descending-priority order on profiles. -/
def priGE (a b : ProfileM) : Prop := b.priority ≤ a.priority

instance : DecidableRel priGE := fun a b => inferInstanceAs (Decidable (b.priority ≤ a.priority))

instance : IsTotal ProfileM priGE := ⟨fun a b => Nat.le_total b.priority a.priority⟩

instance : IsTrans ProfileM priGE := ⟨fun _ _ _ h1 h2 => Nat.le_trans h2 h1⟩

/-- The add-or-update step of Store::handle_device_profile_list: replace the first
profile with the same index, or push at the end. -/
def upsertProfile : List ProfileM → ProfileM → List ProfileM
  | [], p => [p]
  | q :: rest, p => if q.index = p.index then p :: rest else q :: upsertProfile rest p

/-- Store::handle_device_profile_list from devices.rs, after pod parsing: upsert the
profile and re-sort the list by descending priority. -/
def handle_device_profile_list (s : StoreM) (device_id : Nat) (profile : ProfileM) : StoreM :=
  match mlookup device_id s.devices with
  | none => s
  | some device =>
    let profiles2 := List.insertionSort priGE (upsertProfile device.profiles profile)
    { s with devices := minsert device_id { device with profiles := profiles2 } s.devices }

/-- The exact-label match condition of map_ports in links.rs: the input port is
unused, its channel label is neither empty nor unknown, and it equals the
output port's label. Ports are passed as (id, record) pairs. -/
def matchCond (used : List Nat) (op ip : Nat × PortM) : Bool :=
  !used.contains ip.1 && !decide (ip.2.channel = "") &&
    !decide (ip.2.channel = "unknown") && decide (ip.2.channel = op.2.channel)

/-- The greedy exact-label pairing loop of map_ports: returns the pairs and the
final set (as a list) of used input port ids. -/
def greedy (ins : List (Nat × PortM)) : List (Nat × PortM) → List Nat →
    List (Nat × Nat) × List Nat
  | [], used => ([], used)
  | op :: rest, used =>
    match ins.find? (matchCond used op) with
    | some ip =>
      let r := greedy ins rest (ip.1 :: used)
      ((op.1, ip.1) :: r.1, r.2)
    | none => greedy ins rest used

/-- The positional fallback loop of map_ports: output ports not named in the
greedy pairs are paired with the same-index input port when that input is unused. -/
def fallbackPairs (ins : List (Nat × PortM)) (pairs : List (Nat × Nat)) :
    List (Nat × PortM) → Nat → List Nat → List (Nat × Nat)
  | [], _, _ => []
  | op :: rest, i, used =>
    if pairs.any (fun pr => decide (pr.1 = op.1)) then
      fallbackPairs ins pairs rest (i + 1) used
    else
      match ins[i]? with
      | some ip =>
        if used.contains ip.1 then fallbackPairs ins pairs rest (i + 1) used
        else (op.1, ip.1) :: fallbackPairs ins pairs rest (i + 1) (ip.1 :: used)
      | none => fallbackPairs ins pairs rest (i + 1) used

/-- map_ports from links.rs: single-output fan-out, otherwise greedy exact-label
matching with the positional fallback attempted when fewer than
min(|outs|, |ins|) pairs were matched. -/
def map_ports : List (Nat × PortM) → List (Nat × PortM) → List (Nat × Nat)
  | [], _ => []
  | _, [] => []
  | [op], ins => ins.map (fun ip => (op.1, ip.1))
  | o1 :: o2 :: orest, i1 :: irest =>
    let outs := o1 :: o2 :: orest
    let ins := i1 :: irest
    let g := greedy ins outs []
    if g.1.length < min outs.length ins.length then
      g.1 ++ fallbackPairs ins g.1 outs 0 g.2
    else
      g.1

/-- Modelled from the spec wording of the Port Mapper (for the refinement claim):
same as map_ports but the positional fallback runs unconditionally for the
output ports left unpaired by the greedy phase. -/
def map_ports_claim : List (Nat × PortM) → List (Nat × PortM) → List (Nat × Nat)
  | [], _ => []
  | _, [] => []
  | [op], ins => ins.map (fun ip => (op.1, ip.1))
  | o1 :: o2 :: orest, i1 :: irest =>
    let outs := o1 :: o2 :: orest
    let ins := i1 :: irest
    let g := greedy ins outs []
    g.1 ++ fallbackPairs ins g.1 outs 0 g.2

/-- Whether a link with the given (output port, input port) pair exists,
as checked by Store::create_link before creating a pair. -/
def linkExists (s : StoreM) (pr : Nat × Nat) : Bool :=
  s.links.any (fun kv => decide (kv.2.output_port = pr.1) && decide (kv.2.input_port = pr.2))

/-- The ports of a node with the given direction, as collected by Store::create_link. -/
def portsOf (s : StoreM) (node : NodeM) (dir : PortDirectionM) : List (Nat × PortM) :=
  (node.ports.filterMap (fun pid => (mlookup pid s.ports).map (fun p => (pid, p)))).filter
    (fun p => decide (p.2.direction = dir))

/-- Store::create_link from links.rs. The PipeWire factory call is modelled as
always succeeding; on success the list of port pairs actually sent for creation
is returned. Pairs whose link already exists are skipped; if nothing new was
created the call returns the "no new links" error, as in the source. -/
def create_link (s : StoreM) (output_node_id input_node_id : Nat) :
    Except String (List (Nat × Nat)) :=
  match mlookup output_node_id s.nodes with
  | none => Except.error "output node not found"
  | some output_node =>
    match mlookup input_node_id s.nodes with
    | none => Except.error "input node not found"
    | some input_node =>
      let output_ports := portsOf s output_node PortDirectionM.output
      if output_ports.isEmpty then Except.error "no output ports" else
      let input_ports := portsOf s input_node PortDirectionM.input
      if input_ports.isEmpty then Except.error "no input ports" else
      let port_pairs := map_ports output_ports input_ports
      if port_pairs.isEmpty then Except.error "no matching ports" else
      let created := port_pairs.filter (fun pr => !linkExists s pr)
      if created.isEmpty then Except.error "no new links were created" else
      Except.ok created

/-- The media-class to node-type mapping of Store::add_node. -/
def nodeTypeOfMediaClass : Option String → NodeTypeM
  | some "Audio/Sink" => NodeTypeM.audioSink
  | some "Audio/Source" => NodeTypeM.audioSource
  | some "Audio/Duplex" => NodeTypeM.audioDuplex
  | some "Stream/Output/Audio" => NodeTypeM.streamOutputAudio
  | some "Stream/Input/Audio" => NodeTypeM.streamInputAudio
  | _ => NodeTypeM.unknownNode

/-- The media-class to device-type mapping of Store::add_device. -/
def deviceTypeOfMediaClass : Option String → DeviceTypeM
  | some "Audio/Device/Sink" => DeviceTypeM.sinkDevice
  | some "Audio/Sink" => DeviceTypeM.sinkDevice
  | some "Audio/Device/Source" => DeviceTypeM.sourceDevice
  | some "Audio/Source" => DeviceTypeM.sourceDevice
  | _ => DeviceTypeM.unknownDevice

/-- Store::update_device_type_from_nodes from devices.rs. -/
def update_device_type_from_nodes (s : StoreM) (device_id : Nat) : StoreM :=
  let node_types :=
    (s.nodes.filter (fun kv => decide (kv.2.device_id = some device_id))).map
      (fun kv => kv.2.node_type)
  match mlookup device_id s.devices with
  | some device =>
    if device.device_type = DeviceTypeM.unknownDevice then
      if node_types.any (fun nt => decide (nt = NodeTypeM.audioSink)) then
        { s with devices :=
            minsert device_id { device with device_type := DeviceTypeM.sinkDevice } s.devices }
      else if node_types.any (fun nt => decide (nt = NodeTypeM.audioSource)) then
        { s with devices :=
            minsert device_id { device with device_type := DeviceTypeM.sourceDevice } s.devices }
      else s
    else s
  | none => s

/-- Store::add_device from devices.rs: the new record starts with no nodes,
no profiles, no current profile, default routes and no route volume. -/
def add_device (s : StoreM) (id : Nat) (name : String) (media_class : Option String) : StoreM :=
  { s with devices :=
      minsert id { name := name, device_type := deviceTypeOfMediaClass media_class } s.devices }

/-- Store::add_node from nodes.rs: derive the node type from the media class,
adopt already-present ports of this node, insert, then register the node id in
the owning device's nodes list (when that device exists) and update its type. -/
def add_node (s : StoreM) (id : Nat) (name : String) (media_class : Option String)
    (device_id : Option Nat) : StoreM :=
  let node_type := nodeTypeOfMediaClass media_class
  let ports := (s.ports.filter (fun kv => decide (kv.2.node_id = id))).map (fun kv => kv.1)
  let node : NodeM :=
    { name := name, media_class := media_class, node_type := node_type,
      volume := 1, muted := false,
      is_default :=
        (decide (node_type = NodeTypeM.audioSink) && decide (s.default_sink = some id)) ||
        (decide (node_type = NodeTypeM.audioSource) && decide (s.default_source = some id)),
      device_id := device_id, ports := ports, has_received_params := false }
  let s1 := { s with nodes := minsert id node s.nodes }
  match device_id with
  | some dev_id =>
    let s2 :=
      match mlookup dev_id s1.devices with
      | some device =>
        if device.nodes.contains id then s1
        else
          let device2 := { device with nodes := device.nodes ++ [id] }
          { s1 with devices := minsert dev_id device2 s1.devices }
      | none => s1
    update_device_type_from_nodes s2 dev_id
  | none => s1

/-- Store::add_port from links.rs: adopt already-present links that reference
this port on its own side, insert, then register the port in the owning node. -/
def add_port (s : StoreM) (id : Nat) (name : String) (node_id : Nat)
    (direction : PortDirectionM) (channel : String) : StoreM :=
  let links := (s.links.filter (fun kv =>
      (decide (kv.2.input_port = id) && decide (direction = PortDirectionM.input)) ||
      (decide (kv.2.output_port = id) && decide (direction = PortDirectionM.output)))).map
    (fun kv => kv.1)
  let port : PortM :=
    { name := name, node_id := node_id, direction := direction, channel := channel,
      links := links }
  let s1 := { s with ports := minsert id port s.ports }
  match mlookup node_id s1.nodes with
  | some node =>
    if node.ports.contains id then s1
    else { s1 with nodes := minsert node_id { node with ports := node.ports ++ [id] } s1.nodes }
  | none => s1

/-- Store::add_link from links.rs: insert the link and register its id in both
endpoint ports when they are present. -/
def add_link (s : StoreM) (id : Nat)
    (output_node output_port input_node input_port : Nat) : StoreM :=
  let link : LinkM :=
    { output_node := output_node, output_port := output_port,
      input_node := input_node, input_port := input_port }
  let s1 := { s with links := minsert id link s.links }
  let s2 :=
    match mlookup output_port s1.ports with
    | some port =>
      if port.links.contains id then s1
      else { s1 with ports := minsert output_port { port with links := port.links ++ [id] } s1.ports }
    | none => s1
  match mlookup input_port s2.ports with
  | some port =>
    if port.links.contains id then s2
    else { s2 with ports := minsert input_port { port with links := port.links ++ [id] } s2.ports }
  | none => s2

/-- One iteration of the cascade loop in the port branch of
Store::remove_object: detach the link id from the other endpoint's links list
(when the link and that port are present), then remove the link. -/
def cascadeStep (p link_id : Nat) (s : StoreM) : StoreM :=
  let s2 :=
    match mlookup link_id s.links with
    | some link =>
      let other_port_id :=
        if link.output_port = p then link.input_port else link.output_port
      match mlookup other_port_id s.ports with
      | some other_port =>
        let op2 := { other_port with
          links := other_port.links.filter (fun l => !decide (l = link_id)) }
        { s with ports := minsert other_port_id op2 s.ports }
      | none => s
    | none => s
  { s2 with links := mremove link_id s2.links }

/-- The cascade loop in the port branch of Store::remove_object: for every link
id recorded on the removed port, detach the id from the other endpoint's links
list and remove the link. -/
def cascadeLinks (p : Nat) : List Nat → StoreM → StoreM
  | [], s => s
  | link_id :: rest, s => cascadeLinks p rest (cascadeStep p link_id s)

/-- Store::remove_object from engine.rs: try the devices, nodes, ports and links
maps in that order; a removed node clears matching default pointers and its
device back-reference; a removed port cascades over its recorded links; a
removed link is detached from both endpoint ports. -/
def removeObject (s : StoreM) (id : Nat) : StoreM :=
  match mlookup id s.devices with
  | some _ => { s with devices := mremove id s.devices }
  | none =>
    match mlookup id s.nodes with
    | some node =>
      let nodes2 := mremove id s.nodes
      let sink2 := if s.default_sink = some id then none else s.default_sink
      let source2 := if s.default_source = some id then none else s.default_source
      let s3 := { s with nodes := nodes2, default_sink := sink2, default_source := source2 }
      match node.device_id with
      | some device_id =>
        match mlookup device_id s3.devices with
        | some device =>
          let device2 := { device with
            nodes := device.nodes.filter (fun n => !decide (n = id)) }
          { s3 with devices := minsert device_id device2 s3.devices }
        | none => s3
      | none => s3
    | none =>
      match mlookup id s.ports with
      | some port =>
        let s1 := { s with ports := mremove id s.ports }
        let s2 :=
          match mlookup port.node_id s1.nodes with
          | some node =>
            let node2 := { node with
              ports := node.ports.filter (fun pid => !decide (pid = id)) }
            { s1 with nodes := minsert port.node_id node2 s1.nodes }
          | none => s1
        cascadeLinks id port.links s2
      | none =>
        match mlookup id s.links with
        | some link =>
          let s1 := { s with links := mremove id s.links }
          let s2 :=
            match mlookup link.output_port s1.ports with
            | some port =>
              let port2 := { port with
                links := port.links.filter (fun l => !decide (l = id)) }
              { s1 with ports := minsert link.output_port port2 s1.ports }
            | none => s1
          match mlookup link.input_port s2.ports with
          | some port =>
            let port2 := { port with
              links := port.links.filter (fun l => !decide (l = id)) }
            { s2 with ports := minsert link.input_port port2 s2.ports }
          | none => s2
        | none => s

/-- Store::set_default_sink from nodes.rs. The metadata write has no effect on
the store and is omitted; the result pairs the returned value with the store. -/
def set_default_sink (s : StoreM) (node_id : Nat) : Except String Unit × StoreM :=
  match mlookup node_id s.nodes with
  | none => (Except.error "node not found", s)
  | some node =>
    if node.node_type ≠ NodeTypeM.audioSink then (Except.error "node is not a sink", s)
    else if s.default_sink = some node_id then (Except.ok (), s)
    else
      let old_default := s.default_sink
      let s1 := { s with default_sink := some node_id }
      let s2 :=
        match old_default with
        | some old_id =>
          match mlookup old_id s1.nodes with
          | some old_node =>
            { s1 with nodes := minsert old_id { old_node with is_default := false } s1.nodes }
          | none => s1
        | none => s1
      let s3 :=
        match mlookup node_id s2.nodes with
        | some new_node =>
          { s2 with nodes := minsert node_id { new_node with is_default := true } s2.nodes }
        | none => s2
      (Except.ok (), s3)

/-- Store::set_default_source from nodes.rs, symmetric to set_default_sink. -/
def set_default_source (s : StoreM) (node_id : Nat) : Except String Unit × StoreM :=
  match mlookup node_id s.nodes with
  | none => (Except.error "node not found", s)
  | some node =>
    if node.node_type ≠ NodeTypeM.audioSource then (Except.error "node is not a source", s)
    else if s.default_source = some node_id then (Except.ok (), s)
    else
      let old_default := s.default_source
      let s1 := { s with default_source := some node_id }
      let s2 :=
        match old_default with
        | some old_id =>
          match mlookup old_id s1.nodes with
          | some old_node =>
            { s1 with nodes := minsert old_id { old_node with is_default := false } s1.nodes }
          | none => s1
        | none => s1
      let s3 :=
        match mlookup node_id s2.nodes with
        | some new_node =>
          { s2 with nodes := minsert node_id { new_node with is_default := true } s2.nodes }
        | none => s2
      (Except.ok (), s3)

/-- Structural registry events, as dispatched by Store::add_object and
Store::remove_object in engine.rs. -/
inductive EventM where
  | addDevice (id : Nat) (name : String) (media_class : Option String)
  | addNode (id : Nat) (name : String) (media_class : Option String) (device_id : Option Nat)
  | addPort (id : Nat) (name : String) (node_id : Nat) (direction : PortDirectionM)
      (channel : String)
  | addLink (id : Nat) (output_node output_port input_node input_port : Nat)
  | removeObj (id : Nat)
deriving DecidableEq, Repr

/-- Apply one structural event to the store. -/
def applyEvent (s : StoreM) : EventM → StoreM
  | EventM.addDevice id name media_class => add_device s id name media_class
  | EventM.addNode id name media_class device_id => add_node s id name media_class device_id
  | EventM.addPort id name node_id direction channel =>
      add_port s id name node_id direction channel
  | EventM.addLink id out_node out_port in_node in_port =>
      add_link s id out_node out_port in_node in_port
  | EventM.removeObj id => removeObject s id

/-- Apply a sequence of structural events in order. -/
def applyEvents (s : StoreM) (es : List EventM) : StoreM := es.foldl applyEvent s

/-- One node's half of the node-device invariant, against a devices map. -/
def nodeOk (devices : List (Nat × DeviceM)) (kv : Nat × NodeM) : Bool :=
  match kv.2.device_id with
  | none => true
  | some d =>
    match mlookup d devices with
    | some device => device.nodes.contains kv.1
    | none => false

/-- The bidirectional node-device invariant of spec section 3: every node's
device_id points at an existing device whose nodes list holds the node id. -/
def nodeDeviceInv (s : StoreM) : Bool := s.nodes.all (nodeOk s.devices)

/-- Arrival-order side condition under which the node-device invariant is
preserved: a device appears (or is replaced) only while no node references it,
a node naming a device arrives only after that device, and a device is removed
only once no node references it. -/
def okEvent (s : StoreM) : EventM → Bool
  | EventM.addDevice id _ _ => s.nodes.all (fun kv => !decide (kv.2.device_id = some id))
  | EventM.addNode _ _ _ device_id =>
    match device_id with
    | some d => (mlookup d s.devices).isSome
    | none => true
  | EventM.addPort _ _ _ _ _ => true
  | EventM.addLink _ _ _ _ _ => true
  | EventM.removeObj id =>
    !(mlookup id s.devices).isSome ||
      s.nodes.all (fun kv => !decide (kv.2.device_id = some id))

/-- A trace is good when every event satisfies its side condition in the state
it is applied to. -/
def goodTrace : StoreM → List EventM → Bool
  | _, [] => true
  | s, e :: es => okEvent s e && goodTrace (applyEvent s e) es

/-- A captured default-restoration record, from restoration.rs
DefaultRestoration; the Instant timestamp is modelled in whole seconds. -/
structure DefaultRestorationM where
  device_id : Nat
  device_name : String
  had_default_sink : Bool
  had_default_source : Bool
  target_profile_index : Nat
  timestamp : Nat
  attempts : Nat
deriving DecidableEq, Repr

/-- DefaultRestoration::is_expired: more than RESTORATION_TIMEOUT_SECS = 30
seconds elapsed since capture. -/
def DefaultRestorationM.is_expired (r : DefaultRestorationM) (now : Nat) : Bool :=
  decide (now - r.timestamp > 30)

/-- DefaultRestoration::max_attempts_reached: MAX_RESTORATION_ATTEMPTS = 50. -/
def DefaultRestorationM.max_attempts_reached (r : DefaultRestorationM) : Bool :=
  decide (r.attempts ≥ 50)

/-- RestorationManager::attempt_restoration from restoration.rs: find the
device by name, require the target profile to be current and nodes of the
device to exist, then collect the first sink and/or source node as demanded by
the captured flags. The source matches on the sink/source node classes. -/
def attempt_restoration (s : StoreM) (r : DefaultRestorationM) :
    Except String (Option (List Nat × List Nat)) :=
  match s.devices.find? (fun kv => decide (kv.2.name = r.device_name)) with
  | none => Except.error "device not found"
  | some dkv =>
    if dkv.2.current_profile_index ≠ some r.target_profile_index then Except.ok none
    else if !(s.nodes.any (fun kv => decide (kv.2.device_id = some dkv.1))) then Except.ok none
    else
      let sinkFound := s.nodes.find? (fun kv =>
        decide (kv.2.device_id = some dkv.1) && decide (kv.2.node_type = NodeTypeM.audioSink))
      let sourceFound := s.nodes.find? (fun kv =>
        decide (kv.2.device_id = some dkv.1) && decide (kv.2.node_type = NodeTypeM.audioSource))
      if r.had_default_sink then
        match sinkFound with
        | none => Except.ok none
        | some skv =>
          if r.had_default_source then
            match sourceFound with
            | none => Except.ok none
            | some srckv => Except.ok (some ([skv.1], [srckv.1]))
          else Except.ok (some ([skv.1], []))
      else
        if r.had_default_source then
          match sourceFound with
          | none => Except.ok none
          | some srckv => Except.ok (some ([], [srckv.1]))
        else Except.ok (some ([], []))

/-- RestorationManager::get_pending_restorations: for each live record whose
attempt succeeds, emit (first sink id or 0, first source id or 0) and the
completed device name. The HashMap iteration order is the list order. -/
def get_pending_restorations (pending : List (String × DefaultRestorationM)) (s : StoreM)
    (now : Nat) : List (Nat × Nat) × List String :=
  pending.foldl (fun acc entry =>
    let r := entry.2
    if r.is_expired now || r.max_attempts_reached then acc
    else
      match attempt_restoration s r with
      | Except.ok (some (sink_ids, source_ids)) =>
        (acc.1 ++ [(sink_ids.headD 0, source_ids.headD 0)], acc.2 ++ [entry.1])
      | _ => acc) ([], [])

/-- RestorationManager::update_attempts_and_cleanup: drop expired or
attempt-exhausted records, increment the attempt counter of the rest. -/
def update_attempts_and_cleanup (pending : List (String × DefaultRestorationM)) (now : Nat) :
    List (String × DefaultRestorationM) :=
  (pending.filter (fun e => !(e.2.is_expired now) && !e.2.max_attempts_reached)).map
    (fun e => (e.1, { e.2 with attempts := e.2.attempts + 1 }))

/-- RestorationManager::mark_completed: drop the named records. -/
def mark_completed (pending : List (String × DefaultRestorationM)) (names : List String) :
    List (String × DefaultRestorationM) :=
  pending.filter (fun e => !names.contains e.1)

/-- RestorationManager::cleanup_expired: retain non-expired records. -/
def cleanup_expired (pending : List (String × DefaultRestorationM)) (now : Nat) :
    List (String × DefaultRestorationM) :=
  pending.filter (fun e => !(e.2.is_expired now))

/-- The restoration portion of one update_graph round in graph.rs: collect
pending restorations, then age, mark complete and expire the records. Returns
the emitted (sink id, source id) instructions and the surviving records. -/
def pollRound (s : StoreM) (now : Nat) (pending : List (String × DefaultRestorationM)) :
    List (Nat × Nat) × List (String × DefaultRestorationM) :=
  let gp := get_pending_restorations pending s now
  let p1 := update_attempts_and_cleanup pending now
  let p2 := mark_completed p1 gp.2
  let p3 := cleanup_expired p2 now
  (gp.1, p3)

/-- Iterate pollRound a number of times against a fixed store and clock,
concatenating all emitted restoration instructions. -/
def pollTrace (s : StoreM) (now : Nat) : Nat → List (String × DefaultRestorationM) →
    List (Nat × Nat) × List (String × DefaultRestorationM)
  | 0, pending => ([], pending)
  | k + 1, pending =>
    let r1 := pollRound s now pending
    let r2 := pollTrace s now k r1.2
    (r1.1 ++ r2.1, r2.2)

/-- An available stereo profile with high priority. -/
def c7p0 : ProfileM :=
  { index := 0, name := "analog-stereo", description := "Analog Stereo",
    priority := 100, available := "yes" }

/-- The off profile. -/
def c7p1 : ProfileM :=
  { index := 1, name := "off", description := "Off", priority := 50, available := "yes" }

/-- An unavailable profile with low priority. -/
def c7p2 : ProfileM :=
  { index := 2, name := "hdmi", description := "HDMI", priority := 10, available := "no" }

/-- A device whose profile list mixes available, off and unavailable profiles,
sorted by descending priority. -/
def c7Device : DeviceM :=
  { name := "card", profiles := [c7p0, c7p1, c7p2] }

/-- A concrete store holding c7Device. -/
def c7Store : StoreM :=
  { devices := [(3, c7Device)] }

/-- A concrete store in which id 5 names both a device and a default sink node. -/
def c8Store : StoreM :=
  { devices := [(5, { name := "collide" })],
    nodes := [(5, { name := "n", node_type := NodeTypeM.audioSink, is_default := true })],
    default_sink := some 5 }

/-- A concrete store with a default sink node 2 and a default source node 4. -/
def c10Store : StoreM :=
  { nodes := [(2, { name := "spk", node_type := NodeTypeM.audioSink, is_default := true }),
              (4, { name := "mic", node_type := NodeTypeM.audioSource, is_default := true })],
    default_sink := some 2, default_source := some 4 }

/-- A concrete store in which link 7 references port 5, but port 5's own links
list is empty, so the removal cascade never visits link 7. -/
def c3Store : StoreM :=
  { ports := [(5, { node_id := 1, direction := PortDirectionM.output, links := [] }),
              (6, { node_id := 2, direction := PortDirectionM.input, links := [7] })],
    links := [(7, { output_node := 1, output_port := 5, input_node := 2, input_port := 6 })] }

/-- A concrete store with port 5 on node 1, port 6 on node 2, and link 7
between them, with consistent back-references. -/
def c3GoodStore : StoreM :=
  { nodes := [(1, { name := "outn", ports := [5] }), (2, { name := "inn", ports := [6] })],
    ports := [(5, { node_id := 1, direction := PortDirectionM.output, links := [7] }),
              (6, { node_id := 2, direction := PortDirectionM.input, links := [7] })],
    links := [(7, { output_node := 1, output_port := 5, input_node := 2, input_port := 6 })] }

/-- One devices map extends another when every device survives with at least
the node back-references relevant to a given node id. -/
def devExtends (devs1 devs2 : List (Nat × DeviceM)) : Prop :=
  ∀ d dev1, mlookup d devs1 = some dev1 →
    ∃ dev2, mlookup d devs2 = some dev2 ∧ ∀ x ∈ dev1.nodes, x ∈ dev2.nodes

/-- An event trace in which a node naming device 0 arrives before the device. -/
def c2BadTrace : List EventM :=
  [EventM.addNode 1 "n" (some "Audio/Sink") (some 0), EventM.addDevice 0 "d" none]

/-- A well-ordered event trace: device first, then its node, a port, and
removals of the node before the device. -/
def c2GoodTrace : List EventM :=
  [EventM.addDevice 0 "d" (some "Audio/Device/Sink"),
   EventM.addNode 1 "n" (some "Audio/Sink") (some 0),
   EventM.addPort 2 "p" 1 PortDirectionM.output "FL",
   EventM.removeObj 1,
   EventM.removeObj 0]

/-- A USB device sitting at its target profile 3. -/
def c5Device : DeviceM :=
  { name := "USB Headset", current_profile_index := some 3 }

/-- The regenerated sink node owned by device 2. -/
def c5Node : NodeM :=
  { name := "hs", node_type := NodeTypeM.audioSink, device_id := some 2 }

/-- A store in which device 2 reached its target profile and owns sink node 7. -/
def c5Store : StoreM :=
  { devices := [(2, c5Device)], nodes := [(7, c5Node)] }

/-- A live restoration record for the USB headset (4 attempts used). -/
def c5Rec : DefaultRestorationM :=
  { device_id := 2, device_name := "USB Headset", had_default_sink := true,
    had_default_source := false, target_profile_index := 3, timestamp := 100, attempts := 4 }

/-- The USB device stuck at a non-target profile. -/
def c5BadDevice : DeviceM :=
  { name := "USB Headset", current_profile_index := some 1 }

/-- A store in which the device never reaches the target profile. -/
def c5StoreBad : StoreM :=
  { devices := [(2, c5BadDevice)] }

/-- A fresh restoration record (0 attempts used). -/
def c5RecZ : DefaultRestorationM :=
  { device_id := 2, device_name := "USB Headset", had_default_sink := true,
    had_default_source := false, target_profile_index := 3, timestamp := 100, attempts := 0 }

/-- An output port for the c6 stores. -/
def c6OutPort : PortM :=
  { node_id := 1, direction := PortDirectionM.output, channel := "MONO" }

/-- An input port for the c6 stores. -/
def c6InPort : PortM :=
  { node_id := 2, direction := PortDirectionM.input, channel := "MONO" }

/-- A store in which the only mapped port pair (5, 6) is already linked, so
create_link has nothing new to create. -/
def c6Store : StoreM :=
  { nodes := [(1, { name := "outn", ports := [5] }), (2, { name := "inn", ports := [6] })],
    ports := [(5, c6OutPort), (6, c6InPort)],
    links := [(9, { output_node := 1, output_port := 5, input_node := 2, input_port := 6 })] }

/-- The c6 store with a second, unlinked input port 8 on the input node. -/
def c6Store2 : StoreM :=
  { nodes := [(1, { name := "outn", ports := [5] }),
              (2, { name := "inn", ports := [6, 8] })],
    ports := [(5, c6OutPort), (6, c6InPort), (8, c6InPort)],
    links := [(9, { output_node := 1, output_port := 5, input_node := 2, input_port := 6 })] }

/-! Association-list map lemmas. -/

theorem mlookup_minsert_self {α : Type} (k : Nat) (v : α) (m : List (Nat × α)) :
    mlookup k (minsert k v m) = some v := by
  simp [minsert, mlookup]

theorem mlookup_mremove_ne {α : Type} {k k2 : Nat} {m : List (Nat × α)} (h : k2 ≠ k) :
    mlookup k2 (mremove k m) = mlookup k2 m := by
  induction m with
  | nil => rfl
  | cons kv rest ih =>
    by_cases hk : kv.1 = k
    · have hkk : ¬ k = k2 := fun hc => h hc.symm
      simp only [mremove] at ih ⊢
      simp [mlookup, List.filter_cons, hk, hkk]
      exact ih
    · by_cases h2 : kv.1 = k2
      · simp only [mremove] at ih ⊢
        simp [mlookup, List.filter_cons, hk, h2, h]
      · simp only [mremove] at ih ⊢
        simp [mlookup, List.filter_cons, hk, h2]
        exact ih

theorem mlookup_minsert_ne {α : Type} {k k2 : Nat} {v : α} {m : List (Nat × α)} (h : k2 ≠ k) :
    mlookup k2 (minsert k v m) = mlookup k2 m := by
  have hne : k ≠ k2 := fun hc => h hc.symm
  simp [minsert, mlookup, hne, mlookup_mremove_ne h]

theorem mlookup_mem {α : Type} {k : Nat} {v : α} {m : List (Nat × α)} :
    mlookup k m = some v → (k, v) ∈ m := by
  induction m with
  | nil => intro h; simp [mlookup] at h
  | cons kv rest ih =>
    obtain ⟨a, b⟩ := kv
    intro h
    by_cases hk : a = k
    · subst hk
      simp [mlookup] at h
      subst h
      exact List.mem_cons_self _ _
    · simp [mlookup, hk] at h
      exact List.mem_cons_of_mem _ (ih h)

theorem mem_mremove {α : Type} {k : Nat} {kv : Nat × α} {m : List (Nat × α)} :
    kv ∈ mremove k m ↔ kv ∈ m ∧ kv.1 ≠ k := by
  simp [mremove, List.mem_filter]

theorem mem_minsert {α : Type} {k : Nat} {v : α} {kv : Nat × α} {m : List (Nat × α)} :
    kv ∈ minsert k v m ↔ kv = (k, v) ∨ (kv ∈ m ∧ kv.1 ≠ k) := by
  simp [minsert, mem_mremove]

/-! C1: volume resolution. -/

/-- C1 counterexample: the claim asserts that a route-level reading of exactly
(1.0, unmuted) is treated as an unset sentinel and resolution falls back to the
node-level pair, so with route (1, false) and node (4/5, muted) it predicts
(4/5, true); the code returns the route pair (1, false) unchanged. -/
theorem c1_counterexample :
    resolve_effective_volume (some 1) (some false) (4 / 5) true true ≠ ((4 / 5 : ℚ), true) := by
  simp [resolve_effective_volume]

/-- C1 (amended): resolve_effective_volume returns the route pair exactly when
the device exposes route volume and both route volume and mute are known, and
the node pair otherwise, with no sentinel fallback; in particular route
0.3/unmuted beats node 0.8/muted. -/
theorem c1_resolve_effective_volume (rv : Option ℚ) (rm : Option Bool) (nv : ℚ) (nm : Bool)
    (hrv : Bool) :
    (∀ v m, hrv = true → rv = some v → rm = some m →
      resolve_effective_volume rv rm nv nm hrv = (v, m)) ∧
    ((hrv = false ∨ rv = none ∨ rm = none) →
      resolve_effective_volume rv rm nv nm hrv = (nv, nm)) ∧
    resolve_effective_volume (some (3 / 10)) (some false) (4 / 5) true true
      = ((3 / 10 : ℚ), false) := by
  refine ⟨?_, ?_, by simp [resolve_effective_volume]⟩
  · intro v m h1 h2 h3
    subst h1; subst h2; subst h3
    simp [resolve_effective_volume]
  · intro h
    rcases h with h | h | h
    · subst h; simp [resolve_effective_volume]
    · subst h
      cases rm <;> cases hrv <;> simp [resolve_effective_volume]
    · subst h
      cases rv <;> cases hrv <;> simp [resolve_effective_volume]

/-- C1 witness: the amended theorem applied at concrete inputs. -/
theorem c1_resolve_effective_volume_witness :
    resolve_effective_volume (some (1 / 2)) (some true) 2 false true = ((1 / 2 : ℚ), true) ∧
    resolve_effective_volume none none 2 false true = ((2 : ℚ), false) :=
  ⟨(c1_resolve_effective_volume (some (1 / 2)) (some true) 2 false true).1
      (1 / 2) true rfl rfl rfl,
    (c1_resolve_effective_volume none none 2 false true).2.1 (Or.inr (Or.inl rfl))⟩

/-! C9: cubic scaling laws (f32 idealised as real numbers). -/

/-- C9: the perceptual scaling round-trips on [0, 1] (exactly, in the real
idealisation, with 0 mapping to 0 at the clamped boundary), cubic scaling is
the cube root on positive inputs and 0 otherwise, and the inverse is the cube
on positive inputs and 0 otherwise. -/
theorem c9_cubic_scaling_roundtrip (r : ℝ) :
    (0 ≤ r → r ≤ 1 → apply_inverse_cubic_scaling (apply_cubic_scaling r) = r) ∧
    (0 < r → apply_cubic_scaling r = r ^ ((1 : ℝ) / 3)) ∧
    (r ≤ 0 → apply_cubic_scaling r = 0) ∧
    (0 < r → apply_inverse_cubic_scaling r = r ^ ((3 : ℝ))) ∧
    (r ≤ 0 → apply_inverse_cubic_scaling r = 0) := by
  refine ⟨?_, ?_, ?_, ?_, ?_⟩
  · intro h0 _
    rcases eq_or_lt_of_le h0 with h | h
    · rw [← h]
      simp [apply_cubic_scaling, apply_inverse_cubic_scaling]
    · have hc : apply_cubic_scaling r = r ^ ((1 : ℝ) / 3) := by
        rw [apply_cubic_scaling, if_neg (not_le.mpr h)]
      have hpos : (0 : ℝ) < r ^ ((1 : ℝ) / 3) := Real.rpow_pos_of_pos h _
      rw [hc, apply_inverse_cubic_scaling, if_neg (not_le.mpr hpos), ← Real.rpow_mul h0]
      norm_num
  · intro h
    rw [apply_cubic_scaling, if_neg (not_le.mpr h)]
  · intro h
    rw [apply_cubic_scaling, if_pos h]
  · intro h
    rw [apply_inverse_cubic_scaling, if_neg (not_le.mpr h)]
  · intro h
    rw [apply_inverse_cubic_scaling, if_pos h]

/-- C9 witness: the round-trip law applied at r = 1. -/
theorem c9_cubic_scaling_roundtrip_witness :
    ((0 : ℝ) ≤ 1 ∧ (1 : ℝ) ≤ 1) ∧
      apply_inverse_cubic_scaling (apply_cubic_scaling 1) = 1 :=
  ⟨⟨zero_le_one, le_refl 1⟩, (c9_cubic_scaling_roundtrip 1).1 zero_le_one (le_refl 1)⟩

/-! C7: device profile filtering and ordering. -/

/-- C7: get_device_profiles returns only available, non-off profiles and is
sorted by descending priority whenever the device's stored list is; and
handle_device_profile_list keeps every device's profile list sorted by
descending priority (the updated device unconditionally, the others given that
they were sorted before). -/
theorem c7_get_device_profiles (s : StoreM) (d : Nat) :
    (∀ p ∈ get_device_profiles s d, p.is_available = true ∧ p.is_off = false) ∧
    ((∀ dev, mlookup d s.devices = some dev → List.Sorted priGE dev.profiles) →
      List.Sorted priGE (get_device_profiles s d)) ∧
    (∀ profile d2 dev2,
      (∀ dev, mlookup d2 s.devices = some dev → List.Sorted priGE dev.profiles) →
      mlookup d2 (handle_device_profile_list s d profile).devices = some dev2 →
      List.Sorted priGE dev2.profiles) := by
  refine ⟨?_, ?_, ?_⟩
  · intro p hp
    unfold get_device_profiles at hp
    cases hdev : mlookup d s.devices with
    | none => rw [hdev] at hp; simp at hp
    | some dev =>
      rw [hdev] at hp
      have h2 := List.of_mem_filter hp
      simp only [Bool.and_eq_true, Bool.not_eq_true'] at h2
      exact h2
  · intro hs
    unfold get_device_profiles
    cases hdev : mlookup d s.devices with
    | none => simp
    | some dev => exact (hs dev hdev).filter _
  · intro profile d2 dev2 hs h
    unfold handle_device_profile_list at h
    cases hdev : mlookup d s.devices with
    | none =>
      rw [hdev] at h
      exact hs dev2 h
    | some dev =>
      rw [hdev] at h
      by_cases hd : d2 = d
      · subst hd
        rw [mlookup_minsert_self] at h
        cases h
        exact List.sorted_insertionSort priGE _
      · rw [mlookup_minsert_ne hd] at h
        exact hs dev2 h

/-- C7 witness: the theorem applied to the concrete store c7Store. -/
theorem c7_get_device_profiles_witness :
    List.Sorted priGE (get_device_profiles c7Store 3) ∧
    (∀ p ∈ get_device_profiles c7Store 3, p.is_available = true ∧ p.is_off = false) :=
  ⟨(c7_get_device_profiles c7Store 3).2.1
      (by
        intro dev h
        have h3 : some c7Device = some dev := h
        injection h3 with h4
        rw [← h4]
        decide),
    (c7_get_device_profiles c7Store 3).1⟩

/-! C8: removing the default node clears the default pointer. -/

/-- C8 counterexample: the claim quantifies over every store state; when the
removed id names both a device and the default sink node, remove_object takes
the device branch and the default pointer survives. -/
theorem c8_counterexample :
    (mlookup 5 c8Store.nodes).isSome = true ∧ c8Store.default_sink = some 5 ∧
      (removeObject c8Store 5).default_sink = some 5 :=
  ⟨rfl, rfl, rfl⟩

/-- C8 (amended): for a node id that does not simultaneously name a device,
removing the current default sink node clears default_sink, and removing the
current default source node clears default_source. -/
theorem c8_remove_default_node (s : StoreM) (n : Nat) (node : NodeM)
    (hdev : mlookup n s.devices = none) (hnode : mlookup n s.nodes = some node) :
    (s.default_sink = some n → (removeObject s n).default_sink = none) ∧
    (s.default_source = some n → (removeObject s n).default_source = none) := by
  constructor
  · intro hsink
    simp only [removeObject, hdev, hnode]
    repeat' split
    all_goals rfl
  · intro hsource
    simp only [removeObject, hdev, hnode]
    repeat' split
    all_goals rfl

/-- C8 witness: the amended theorem applied to a concrete store. -/
theorem c8_remove_default_node_witness :
    (removeObject c10Store 2).default_sink = none ∧
      (removeObject c10Store 4).default_source = none :=
  ⟨(c8_remove_default_node c10Store 2
      { name := "spk", node_type := NodeTypeM.audioSink, is_default := true } rfl rfl).1 rfl,
    (c8_remove_default_node c10Store 4
      { name := "mic", node_type := NodeTypeM.audioSource, is_default := true } rfl rfl).2 rfl⟩

/-! C10: guard and no-op behaviour of set_default_sink and set_default_source. -/

/-- C10: set_default_sink returns an error and leaves the store unchanged when
the node is absent or not an AudioSink, and is an Ok no-op when the node is the
current default sink; symmetrically for set_default_source with AudioSource. -/
theorem c10_set_default_guards (s : StoreM) (n : Nat) :
    (mlookup n s.nodes = none → ∃ msg, set_default_sink s n = (Except.error msg, s)) ∧
    (∀ node, mlookup n s.nodes = some node → node.node_type ≠ NodeTypeM.audioSink →
      ∃ msg, set_default_sink s n = (Except.error msg, s)) ∧
    (∀ node, mlookup n s.nodes = some node → node.node_type = NodeTypeM.audioSink →
      s.default_sink = some n → set_default_sink s n = (Except.ok (), s)) ∧
    (mlookup n s.nodes = none → ∃ msg, set_default_source s n = (Except.error msg, s)) ∧
    (∀ node, mlookup n s.nodes = some node → node.node_type ≠ NodeTypeM.audioSource →
      ∃ msg, set_default_source s n = (Except.error msg, s)) ∧
    (∀ node, mlookup n s.nodes = some node → node.node_type = NodeTypeM.audioSource →
      s.default_source = some n → set_default_source s n = (Except.ok (), s)) := by
  refine ⟨?_, ?_, ?_, ?_, ?_, ?_⟩
  · intro h
    exact ⟨"node not found", by simp [set_default_sink, h]⟩
  · intro node hl hty
    exact ⟨"node is not a sink", by simp [set_default_sink, hl, hty]⟩
  · intro node hl hty hdef
    simp [set_default_sink, hl, hty, hdef]
  · intro h
    exact ⟨"node not found", by simp [set_default_source, h]⟩
  · intro node hl hty
    exact ⟨"node is not a source", by simp [set_default_source, hl, hty]⟩
  · intro node hl hty hdef
    simp [set_default_source, hl, hty, hdef]

/-- C10 witness: the six cases applied to the concrete store c10Store. -/
theorem c10_set_default_guards_witness :
    (∃ msg, set_default_sink c10Store 9 = (Except.error msg, c10Store)) ∧
    (∃ msg, set_default_sink c10Store 4 = (Except.error msg, c10Store)) ∧
    set_default_sink c10Store 2 = (Except.ok (), c10Store) ∧
    (∃ msg, set_default_source c10Store 9 = (Except.error msg, c10Store)) ∧
    (∃ msg, set_default_source c10Store 2 = (Except.error msg, c10Store)) ∧
    set_default_source c10Store 4 = (Except.ok (), c10Store) :=
  ⟨(c10_set_default_guards c10Store 9).1 rfl,
   (c10_set_default_guards c10Store 4).2.1
      { name := "mic", node_type := NodeTypeM.audioSource, is_default := true } rfl (by decide),
   (c10_set_default_guards c10Store 2).2.2.1
      { name := "spk", node_type := NodeTypeM.audioSink, is_default := true } rfl rfl rfl,
   (c10_set_default_guards c10Store 9).2.2.2.1 rfl,
   (c10_set_default_guards c10Store 2).2.2.2.2.1
      { name := "spk", node_type := NodeTypeM.audioSink, is_default := true } rfl (by decide),
   (c10_set_default_guards c10Store 4).2.2.2.2.2
      { name := "mic", node_type := NodeTypeM.audioSource, is_default := true } rfl rfl rfl⟩

/-! C3: the port-removal cascade. -/

theorem mlookup_mremove_self {α : Type} (k : Nat) (m : List (Nat × α)) :
    mlookup k (mremove k m) = none := by
  induction m with
  | nil => rfl
  | cons kv rest ih =>
    simp only [mremove, List.filter_cons] at ih ⊢
    by_cases hk : kv.1 = k
    · simp [hk]
      exact ih
    · simp [hk, mlookup]
      exact ih

theorem cascadeStep_nodes (p i : Nat) (s : StoreM) : (cascadeStep p i s).nodes = s.nodes := by
  simp only [cascadeStep]
  repeat' split
  all_goals rfl

theorem cascadeStep_devices (p i : Nat) (s : StoreM) :
    (cascadeStep p i s).devices = s.devices := by
  simp only [cascadeStep]
  repeat' split
  all_goals rfl

theorem cascadeStep_links_self (p i : Nat) (s : StoreM) :
    mlookup i (cascadeStep p i s).links = none := by
  simp only [cascadeStep]
  repeat' split
  all_goals simp [mlookup_mremove_self]

theorem cascadeStep_links_ne (p i x : Nat) (s : StoreM) (h : x ≠ i) :
    mlookup x (cascadeStep p i s).links = mlookup x s.links := by
  simp only [cascadeStep]
  repeat' split
  all_goals simp [mlookup_mremove_ne h]

theorem cascadeStep_ports_mono (p i x : Nat) (s : StoreM) (q2 : PortM)
    (h : mlookup x (cascadeStep p i s).ports = some q2) :
    ∃ q, mlookup x s.ports = some q ∧ ∀ a ∈ q2.links, a ∈ q.links := by
  simp only [cascadeStep] at h
  split at h
  · rename_i link heq
    split at h
    · rename_i other_port heq2
      by_cases hx : x = (if link.output_port = p then link.input_port else link.output_port)
      · subst hx
        rw [mlookup_minsert_self] at h
        injection h with h2
        refine ⟨other_port, heq2, ?_⟩
        intro a ha
        rw [← h2] at ha
        simp only [List.mem_filter, Bool.not_eq_eq_eq_not, Bool.not_true,
          decide_eq_false_iff_not] at ha
        exact ha.1
      · rw [mlookup_minsert_ne hx] at h
        exact ⟨q2, h, fun a ha => ha⟩
    · exact ⟨q2, h, fun a ha => ha⟩
  · exact ⟨q2, h, fun a ha => ha⟩

theorem cascadeLinks_nodes (p : Nat) : ∀ (ids : List Nat) (s : StoreM),
    (cascadeLinks p ids s).nodes = s.nodes
  | [], _ => rfl
  | i :: ids, s => by
    simp only [cascadeLinks]
    rw [cascadeLinks_nodes p ids, cascadeStep_nodes]

theorem cascadeLinks_devices (p : Nat) : ∀ (ids : List Nat) (s : StoreM),
    (cascadeLinks p ids s).devices = s.devices
  | [], _ => rfl
  | i :: ids, s => by
    simp only [cascadeLinks]
    rw [cascadeLinks_devices p ids, cascadeStep_devices]

theorem cascadeLinks_ports_mono (p : Nat) : ∀ (ids : List Nat) (s : StoreM) (x : Nat)
    (q2 : PortM), mlookup x (cascadeLinks p ids s).ports = some q2 →
    ∃ q, mlookup x s.ports = some q ∧ ∀ a ∈ q2.links, a ∈ q.links
  | [], _, _, q2, h => ⟨q2, h, fun a ha => ha⟩
  | i :: ids, s, x, q2, h => by
    simp only [cascadeLinks] at h
    obtain ⟨q1, hq1, hsub1⟩ := cascadeLinks_ports_mono p ids _ x q2 h
    obtain ⟨q0, hq0, hsub0⟩ := cascadeStep_ports_mono p i x s q1 hq1
    exact ⟨q0, hq0, fun a ha => hsub0 a (hsub1 a ha)⟩

theorem cascadeLinks_links_not_mem (p : Nat) : ∀ (ids : List Nat) (s : StoreM) {lid : Nat},
    lid ∉ ids → mlookup lid (cascadeLinks p ids s).links = mlookup lid s.links
  | [], _, _, _ => rfl
  | i :: ids, s, lid, h => by
    have hi : lid ≠ i := fun hc => h (hc ▸ List.mem_cons_self i ids)
    have hrest : lid ∉ ids := fun hc => h (List.mem_cons_of_mem _ hc)
    simp only [cascadeLinks]
    rw [cascadeLinks_links_not_mem p ids _ hrest, cascadeStep_links_ne p i lid s hi]

theorem cascadeLinks_links_mem (p : Nat) : ∀ (ids : List Nat) (s : StoreM) {lid : Nat},
    lid ∈ ids → mlookup lid (cascadeLinks p ids s).links = none
  | [], _, _, hmem => absurd hmem (List.not_mem_nil _)
  | i :: ids, s, lid, hmem => by
    by_cases h2 : lid ∈ ids
    · simp only [cascadeLinks]
      exact cascadeLinks_links_mem p ids _ h2
    · have hi : lid = i := by
        rcases List.mem_cons.mp hmem with h1 | h1
        · exact h1
        · exact absurd h1 h2
      subst hi
      simp only [cascadeLinks]
      rw [cascadeLinks_links_not_mem p ids _ h2, cascadeStep_links_self]

theorem cascadeStep_detaches (p i : Nat) (s : StoreM) (l : LinkM)
    (hl : mlookup i s.links = some l) :
    ∀ q, mlookup (if l.output_port = p then l.input_port else l.output_port)
      (cascadeStep p i s).ports = some q → i ∉ q.links := by
  intro q hq hin
  by_cases hif : l.output_port = p
  · simp only [cascadeStep, hl, if_pos hif] at hq
    split at hq
    · rename_i other_port heq2
      have hq2 : mlookup l.input_port
          (minsert l.input_port
            { other_port with links := other_port.links.filter (fun a => !decide (a = i)) }
            s.ports) = some q := hq
      rw [mlookup_minsert_self] at hq2
      injection hq2 with h2
      rw [← h2] at hin
      simp at hin
    · rename_i heq2
      have hq2 : mlookup l.input_port s.ports = some q := hq
      rw [heq2] at hq2
      cases hq2
  · simp only [cascadeStep, hl, if_neg hif] at hq
    split at hq
    · rename_i other_port heq2
      have hq2 : mlookup l.output_port
          (minsert l.output_port
            { other_port with links := other_port.links.filter (fun a => !decide (a = i)) }
            s.ports) = some q := hq
      rw [mlookup_minsert_self] at hq2
      injection hq2 with h2
      rw [← h2] at hin
      simp at hin
    · rename_i heq2
      have hq2 : mlookup l.output_port s.ports = some q := hq
      rw [heq2] at hq2
      cases hq2

theorem cascadeLinks_detaches (p : Nat) : ∀ (ids : List Nat) (s : StoreM) (lid : Nat)
    (l : LinkM), lid ∈ ids → mlookup lid s.links = some l →
    ∀ q, mlookup (if l.output_port = p then l.input_port else l.output_port)
      (cascadeLinks p ids s).ports = some q → lid ∉ q.links
  | [], _, _, _, hmem, _ => absurd hmem (List.not_mem_nil _)
  | i :: ids, s, lid, l, hmem, hl => by
    by_cases hi : lid = i
    · subst hi
      simp only [cascadeLinks]
      intro q hq hin
      obtain ⟨q1, hq1, hsub⟩ := cascadeLinks_ports_mono p ids _ _ q hq
      exact cascadeStep_detaches p lid s l hl q1 hq1 (hsub lid hin)
    · have h2 : lid ∈ ids := by
        rcases List.mem_cons.mp hmem with h1 | h1
        · exact absurd h1 hi
        · exact h1
      simp only [cascadeLinks]
      have hl2 : mlookup lid (cascadeStep p i s).links = some l := by
        rw [cascadeStep_links_ne p i lid s hi]
        exact hl
      exact cascadeLinks_detaches p ids _ lid l h2 hl2

/-- C3 counterexample: the claim quantifies over every store state; in c3Store
link 7 references port 5 but is absent from port 5's links list, so after
remove_object(5) the link survives and still references the removed port. -/
theorem c3_counterexample :
    (mlookup 5 c3Store.ports).isSome = true ∧
    mlookup 7 (removeObject c3Store 5).links =
      some { output_node := 1, output_port := 5, input_node := 2, input_port := 6 } :=
  ⟨rfl, rfl⟩

/-- C3 (amended): for a port id that names neither a device nor a node, if
every link referencing the port is recorded in the port's links list (as the
add operations maintain), then after remove_object(p) no link referencing p
remains, and the other endpoint of each previously referencing link, when still
present, no longer lists that link id. -/
theorem c3_port_removal_cascade (s : StoreM) (p : Nat) (port : PortM)
    (hdev : mlookup p s.devices = none) (hnode : mlookup p s.nodes = none)
    (hport : mlookup p s.ports = some port)
    (hcons : ∀ lid l, mlookup lid s.links = some l →
      (l.output_port = p ∨ l.input_port = p) → lid ∈ port.links) :
    (∀ lid l, mlookup lid (removeObject s p).links = some l →
      ¬(l.output_port = p ∨ l.input_port = p)) ∧
    (∀ lid l, mlookup lid s.links = some l → (l.output_port = p ∨ l.input_port = p) →
      ∀ q, mlookup (if l.output_port = p then l.input_port else l.output_port)
        (removeObject s p).ports = some q → lid ∉ q.links) := by
  have hred : ∃ sPre : StoreM, removeObject s p = cascadeLinks p port.links sPre ∧
      sPre.links = s.links := by
    simp only [removeObject, hdev, hnode, hport]
    split
    · exact ⟨_, rfl, rfl⟩
    · exact ⟨_, rfl, rfl⟩
  obtain ⟨sPre, hEq, hLinks⟩ := hred
  constructor
  · intro lid l hl href
    rw [hEq] at hl
    by_cases hmem : lid ∈ port.links
    · rw [cascadeLinks_links_mem p port.links sPre hmem] at hl
      cases hl
    · rw [cascadeLinks_links_not_mem p port.links sPre hmem, hLinks] at hl
      exact hmem (hcons lid l hl href)
  · intro lid l hl href q hq
    rw [hEq] at hq
    have hmem : lid ∈ port.links := hcons lid l hl href
    have hl2 : mlookup lid sPre.links = some l := by
      rw [hLinks]
      exact hl
    exact cascadeLinks_detaches p port.links sPre lid l hmem hl2 q hq

/-- C3 witness: the amended theorem applied to a consistent concrete store;
after removing port 5, the surviving port 6 no longer lists the cascaded
link 7. -/
theorem c3_port_removal_cascade_witness :
    mlookup 6 (removeObject c3GoodStore 5).ports =
      some { node_id := 2, direction := PortDirectionM.input, links := [] } ∧
    7 ∉ ({ node_id := 2, direction := PortDirectionM.input,
            links := [] } : PortM).links :=
  ⟨rfl,
    (c3_port_removal_cascade c3GoodStore 5
        { node_id := 1, direction := PortDirectionM.output, links := [7] }
        rfl rfl rfl
        (fun lid l hl _ => by
          have hmem := mlookup_mem hl
          simp only [c3GoodStore, List.mem_singleton, Prod.mk.injEq] at hmem
          obtain ⟨h1, _⟩ := hmem
          subst h1
          simp)).2
      7 { output_node := 1, output_port := 5, input_node := 2, input_port := 6 } rfl
      (Or.inl rfl) { node_id := 2, direction := PortDirectionM.input, links := [] } rfl⟩

/-! C2: the node-device back-reference invariant. -/

theorem contains_true_iff (l : List Nat) (x : Nat) : l.contains x = true ↔ x ∈ l := by
  simp

theorem inv_iff (s : StoreM) :
    nodeDeviceInv s = true ↔ ∀ kv ∈ s.nodes, nodeOk s.devices kv = true := by
  simp [nodeDeviceInv, List.all_eq_true]

theorem nodeOk_mono {devs1 devs2 : List (Nat × DeviceM)} (kv : Nat × NodeM)
    (h : ∀ d dev1, kv.2.device_id = some d → mlookup d devs1 = some dev1 →
      ∃ dev2, mlookup d devs2 = some dev2 ∧ (kv.1 ∈ dev1.nodes → kv.1 ∈ dev2.nodes))
    (hok : nodeOk devs1 kv = true) : nodeOk devs2 kv = true := by
  unfold nodeOk at hok ⊢
  cases hdid : kv.2.device_id with
  | none => simp
  | some d =>
    simp only [hdid] at hok ⊢
    cases hdev : mlookup d devs1 with
    | none =>
      simp only [hdev] at hok
      exact (Bool.false_ne_true hok).elim
    | some dev1 =>
      simp only [hdev] at hok
      obtain ⟨dev2, hdev2, hsub⟩ := h d dev1 hdid hdev
      simp only [hdev2]
      rw [contains_true_iff] at hok ⊢
      exact hsub hok

theorem nodeOk_device_id_eq (devs : List (Nat × DeviceM)) (k : Nat) {n1 n2 : NodeM}
    (h : n2.device_id = n1.device_id) (hok : nodeOk devs (k, n1) = true) :
    nodeOk devs (k, n2) = true := by
  unfold nodeOk at hok ⊢
  simpa [h] using hok

theorem nodeDeviceInv_eq_of (s1 s2 : StoreM) (hn : s1.nodes = s2.nodes)
    (hd : s1.devices = s2.devices) : nodeDeviceInv s1 = nodeDeviceInv s2 := by
  unfold nodeDeviceInv
  rw [hn, hd]

theorem update_device_type_nodes (s : StoreM) (d : Nat) :
    (update_device_type_from_nodes s d).nodes = s.nodes := by
  simp only [update_device_type_from_nodes]
  repeat' split
  all_goals rfl

theorem update_device_type_devExtends (s : StoreM) (d : Nat) :
    devExtends s.devices (update_device_type_from_nodes s d).devices := by
  intro d2 dev1 h1
  simp only [update_device_type_from_nodes]
  split
  · rename_i device heq
    split
    · split
      · by_cases hd : d2 = d
        · subst hd
          rw [heq] at h1
          injection h1 with h1e
          subst h1e
          exact ⟨_, mlookup_minsert_self _ _ _, fun x hx => hx⟩
        · exact ⟨dev1, by rw [mlookup_minsert_ne hd]; exact h1, fun x hx => hx⟩
      · split
        · by_cases hd : d2 = d
          · subst hd
            rw [heq] at h1
            injection h1 with h1e
            subst h1e
            exact ⟨_, mlookup_minsert_self _ _ _, fun x hx => hx⟩
          · exact ⟨dev1, by rw [mlookup_minsert_ne hd]; exact h1, fun x hx => hx⟩
        · exact ⟨dev1, h1, fun x hx => hx⟩
    · exact ⟨dev1, h1, fun x hx => hx⟩
  · exact ⟨dev1, h1, fun x hx => hx⟩

theorem add_link_fields (s : StoreM) (id a b c d : Nat) :
    (add_link s id a b c d).nodes = s.nodes ∧ (add_link s id a b c d).devices = s.devices := by
  simp only [add_link]
  repeat' split
  all_goals exact ⟨rfl, rfl⟩

theorem update_device_type_preserves_inv (s : StoreM) (d : Nat)
    (hinv : nodeDeviceInv s = true) :
    nodeDeviceInv (update_device_type_from_nodes s d) = true := by
  rw [inv_iff, update_device_type_nodes]
  intro kv hkv
  refine nodeOk_mono kv ?_ ((inv_iff s).mp hinv kv hkv)
  intro d2 dev1 _ hdev1
  obtain ⟨dev2, hdev2, hsub⟩ := update_device_type_devExtends s d d2 dev1 hdev1
  exact ⟨dev2, hdev2, fun hx => hsub _ hx⟩

/-- Step preservation: under its side condition, every structural event keeps
the node-device invariant. -/
theorem applyEvent_preserves_inv (s : StoreM) (e : EventM)
    (hok : okEvent s e = true) (hinv : nodeDeviceInv s = true) :
    nodeDeviceInv (applyEvent s e) = true := by
  cases e with
  | addDevice id name mc =>
    simp only [okEvent, List.all_eq_true] at hok
    simp only [applyEvent, add_device]
    rw [inv_iff]
    intro kv hkv
    refine nodeOk_mono kv ?_ ((inv_iff s).mp hinv kv hkv)
    intro d dev1 hdid hdev
    have hne : d ≠ id := by
      intro hc
      subst hc
      have h2 := hok kv hkv
      simp at h2
      exact h2 hdid
    exact ⟨dev1, by rw [mlookup_minsert_ne hne]; exact hdev, fun hx => hx⟩
  | addNode id name mc did =>
    simp only [applyEvent, add_node]
    cases did with
    | none =>
      rw [inv_iff]
      intro kv hkv
      rcases mem_minsert.mp hkv with hnew | hold
      · subst hnew
        simp [nodeOk]
      · exact (inv_iff s).mp hinv kv hold.1
    | some d =>
      simp only [okEvent] at hok
      obtain ⟨dev, hdev⟩ := Option.isSome_iff_exists.mp hok
      simp only [hdev]
      split
      · rename_i hcont
        refine update_device_type_preserves_inv _ d ?_
        rw [inv_iff]
        intro kv hkv
        rcases mem_minsert.mp hkv with hnew | hold
        · subst hnew
          simp only [nodeOk, hdev]
          exact hcont
        · exact (inv_iff s).mp hinv kv hold.1
      · rename_i hcont
        refine update_device_type_preserves_inv _ d ?_
        rw [inv_iff]
        intro kv hkv
        rcases mem_minsert.mp hkv with hnew | hold
        · subst hnew
          simp only [nodeOk]
          rw [mlookup_minsert_self, contains_true_iff]
          simp
        · refine nodeOk_mono kv ?_ ((inv_iff s).mp hinv kv hold.1)
          intro d2 dev1 hdid hdev1
          by_cases hd2 : d2 = d
          · subst hd2
            rw [hdev1] at hdev
            injection hdev with he
            subst he
            exact ⟨_, mlookup_minsert_self _ _ _, fun hx => List.mem_append_left _ hx⟩
          · exact ⟨dev1, by rw [mlookup_minsert_ne hd2]; exact hdev1, fun hx => hx⟩
  | addPort id name nid dir ch =>
    simp only [applyEvent, add_port]
    split
    · rename_i node heq
      split
      · exact hinv
      · rw [inv_iff]
        intro kv hkv
        rcases mem_minsert.mp hkv with hnew | hold
        · subst hnew
          exact nodeOk_device_id_eq s.devices nid rfl
            ((inv_iff s).mp hinv (nid, node) (mlookup_mem heq))
        · exact (inv_iff s).mp hinv kv hold.1
    · exact hinv
  | addLink id a b c d =>
    simp only [applyEvent]
    obtain ⟨h1, h2⟩ := add_link_fields s id a b c d
    rw [nodeDeviceInv_eq_of (add_link s id a b c d) s h1 h2]
    exact hinv
  | removeObj id =>
    simp only [applyEvent]
    cases hd : mlookup id s.devices with
    | some dev =>
      simp only [okEvent, hd, Option.isSome_some, Bool.not_true, Bool.false_or,
        List.all_eq_true] at hok
      simp only [removeObject, hd]
      rw [inv_iff]
      intro kv hkv
      refine nodeOk_mono kv ?_ ((inv_iff s).mp hinv kv hkv)
      intro d2 dev1 hdid hdev1
      have hne : d2 ≠ id := by
        intro hc
        subst hc
        have h2 := hok kv hkv
        simp at h2
        exact h2 hdid
      exact ⟨dev1, by rw [mlookup_mremove_ne hne]; exact hdev1, fun hx => hx⟩
    | none =>
      cases hn : mlookup id s.nodes with
      | some node =>
        simp only [removeObject, hd, hn]
        split
        · rename_i dd heq1
          split
          · rename_i dev heq2
            rw [inv_iff]
            intro kv hkv
            have hkv2 := mem_mremove.mp hkv
            refine nodeOk_mono kv ?_ ((inv_iff s).mp hinv kv hkv2.1)
            intro d2 dev1 hdid hdev1
            by_cases hd2 : d2 = dd
            · subst hd2
              have heq2b : mlookup d2 s.devices = some dev := heq2
              rw [hdev1] at heq2b
              injection heq2b with he
              subst he
              refine ⟨_, mlookup_minsert_self _ _ _, fun hx => ?_⟩
              simp only [List.mem_filter, Bool.not_eq_eq_eq_not, Bool.not_true,
                decide_eq_false_iff_not]
              exact ⟨hx, hkv2.2⟩
            · exact ⟨dev1, by rw [mlookup_minsert_ne hd2]; exact hdev1, fun hx => hx⟩
          · rw [inv_iff]
            intro kv hkv
            have hkv2 := mem_mremove.mp hkv
            exact (inv_iff s).mp hinv kv hkv2.1
        · rw [inv_iff]
          intro kv hkv
          have hkv2 := mem_mremove.mp hkv
          exact (inv_iff s).mp hinv kv hkv2.1
      | none =>
        cases hp : mlookup id s.ports with
        | some port =>
          simp only [removeObject, hd, hn, hp]
          split
          · rename_i node heq
            rw [nodeDeviceInv_eq_of _ _ (cascadeLinks_nodes id port.links _)
              (cascadeLinks_devices id port.links _)]
            rw [inv_iff]
            intro kv hkv
            rcases mem_minsert.mp hkv with hnew | hold
            · subst hnew
              exact nodeOk_device_id_eq s.devices port.node_id rfl
                ((inv_iff s).mp hinv (port.node_id, node) (mlookup_mem heq))
            · exact (inv_iff s).mp hinv kv hold.1
          · rw [nodeDeviceInv_eq_of _ _ (cascadeLinks_nodes id port.links _)
              (cascadeLinks_devices id port.links _)]
            exact hinv
        | none =>
          cases hl : mlookup id s.links with
          | some link =>
            simp only [removeObject, hd, hn, hp, hl]
            split
            · rename_i port1 heq1
              split
              · exact hinv
              · exact hinv
            · split
              · exact hinv
              · exact hinv
          | none =>
            simp only [removeObject, hd, hn, hp, hl]
            exact hinv

/-- C2 counterexample: the claim asserts the invariant for every event order;
when a node naming device 0 arrives before the device, the device's nodes list
stays empty and the invariant fails in the reachable state. -/
theorem c2_counterexample :
    nodeDeviceInv (applyEvents {} c2BadTrace) = false := by
  rfl

/-- C2 (amended): the node-device invariant holds in every state reachable by
a trace whose events satisfy the arrival-order side conditions of okEvent: a
device is added or removed only while no node references it, and a node naming
a device arrives only after the device. -/
theorem c2_node_device_invariant (s : StoreM) (es : List EventM)
    (hg : goodTrace s es = true) (hinv : nodeDeviceInv s = true) :
    nodeDeviceInv (applyEvents s es) = true := by
  induction es generalizing s with
  | nil => exact hinv
  | cons e es ih =>
    simp only [goodTrace, Bool.and_eq_true] at hg
    exact ih (applyEvent s e) hg.2 (applyEvent_preserves_inv s e hg.1 hinv)

/-- C2 witness: the amended theorem applied to a concrete well-ordered trace. -/
theorem c2_node_device_invariant_witness :
    goodTrace {} c2GoodTrace = true ∧
      nodeDeviceInv (applyEvents {} c2GoodTrace) = true :=
  ⟨rfl, c2_node_device_invariant {} c2GoodTrace rfl rfl⟩

/-! C4: the port mapper. -/

theorem greedy_len (ins : List (Nat × PortM)) : ∀ (outs : List (Nat × PortM)) (used : List Nat),
    (greedy ins outs used).1.length + used.length = (greedy ins outs used).2.length
  | [], used => by simp [greedy]
  | op :: rest, used => by
    simp only [greedy]
    cases hfind : ins.find? (matchCond used op) with
    | some ip =>
      simp only [hfind]
      have h2 := greedy_len ins rest (ip.1 :: used)
      simp only [List.length_cons] at h2 ⊢
      omega
    | none =>
      simp only [hfind]
      exact greedy_len ins rest used

theorem greedy_used_mem (ins : List (Nat × PortM)) : ∀ (outs : List (Nat × PortM))
    (used : List Nat), ∀ u ∈ (greedy ins outs used).2, u ∈ used ∨ u ∈ ins.map Prod.fst
  | [], used => by
    simp only [greedy]
    exact fun u hu => Or.inl hu
  | op :: rest, used => by
    simp only [greedy]
    cases hfind : ins.find? (matchCond used op) with
    | some ip =>
      simp only [hfind]
      intro u hu
      rcases greedy_used_mem ins rest (ip.1 :: used) u hu with h | h
      · rcases List.mem_cons.mp h with h2 | h2
        · subst h2
          exact Or.inr (List.mem_map_of_mem Prod.fst (List.mem_of_find?_eq_some hfind))
        · exact Or.inl h2
      · exact Or.inr h
    | none =>
      simp only [hfind]
      exact greedy_used_mem ins rest used

theorem greedy_used_nodup (ins : List (Nat × PortM)) : ∀ (outs : List (Nat × PortM))
    (used : List Nat), used.Nodup → (greedy ins outs used).2.Nodup
  | [], used, h => by simpa [greedy] using h
  | op :: rest, used, h => by
    simp only [greedy]
    cases hfind : ins.find? (matchCond used op) with
    | some ip =>
      simp only [hfind]
      refine greedy_used_nodup ins rest (ip.1 :: used) ?_
      rw [List.nodup_cons]
      refine ⟨?_, h⟩
      have hcond := List.find?_some hfind
      simp only [matchCond, Bool.and_eq_true, Bool.not_eq_true'] at hcond
      intro hc
      rw [← contains_true_iff] at hc
      rw [hcond.1.1.1] at hc
      cases hc
    | none =>
      simp only [hfind]
      exact greedy_used_nodup ins rest used h

theorem greedy_pairs_len_le (ins : List (Nat × PortM)) : ∀ (outs : List (Nat × PortM))
    (used : List Nat), (greedy ins outs used).1.length ≤ outs.length
  | [], used => by simp [greedy]
  | op :: rest, used => by
    simp only [greedy]
    cases hfind : ins.find? (matchCond used op) with
    | some ip =>
      simp only [hfind, List.length_cons]
      have := greedy_pairs_len_le ins rest (ip.1 :: used)
      omega
    | none =>
      simp only [hfind, List.length_cons]
      have := greedy_pairs_len_le ins rest used
      omega

theorem greedy_pairs_full (ins : List (Nat × PortM)) : ∀ (outs : List (Nat × PortM))
    (used : List Nat), (greedy ins outs used).1.length = outs.length →
    ∀ op ∈ outs, ∃ pr ∈ (greedy ins outs used).1, pr.1 = op.1
  | [], _, _, op, hop => absurd hop (List.not_mem_nil _)
  | op0 :: rest, used, hlen, op, hop => by
    simp only [greedy] at hlen ⊢
    cases hfind : ins.find? (matchCond used op0) with
    | some ip =>
      simp only [hfind] at hlen ⊢
      rcases List.mem_cons.mp hop with h | h
      · subst h
        exact ⟨(op.1, ip.1), List.mem_cons_self _ _, rfl⟩
      · simp only [List.length_cons] at hlen
        obtain ⟨pr, hpr, he⟩ :=
          greedy_pairs_full ins rest (ip.1 :: used) (by omega) op h
        exact ⟨pr, List.mem_cons_of_mem _ hpr, he⟩
    | none =>
      simp only [hfind, List.length_cons] at hlen
      have := greedy_pairs_len_le ins rest used
      omega

theorem fallback_nil_of_all_paired (ins : List (Nat × PortM)) (pairs : List (Nat × Nat)) :
    ∀ (outs : List (Nat × PortM)) (i : Nat) (used : List Nat),
    (∀ op ∈ outs, pairs.any (fun pr => decide (pr.1 = op.1)) = true) →
    fallbackPairs ins pairs outs i used = []
  | [], _, _, _ => rfl
  | op :: rest, i, used, h => by
    simp only [fallbackPairs]
    rw [if_pos (h op (List.mem_cons_self _ _))]
    exact fallback_nil_of_all_paired ins pairs rest (i + 1) used
      (fun op2 hop2 => h op2 (List.mem_cons_of_mem _ hop2))

theorem fallback_nil_of_all_used (ins : List (Nat × PortM)) (pairs : List (Nat × Nat)) :
    ∀ (outs : List (Nat × PortM)) (i : Nat) (used : List Nat),
    (∀ ip ∈ ins, used.contains ip.1 = true) →
    fallbackPairs ins pairs outs i used = []
  | [], _, _, _ => rfl
  | op :: rest, i, used, h => by
    simp only [fallbackPairs]
    split
    · exact fallback_nil_of_all_used ins pairs rest (i + 1) used h
    · cases hget : ins[i]? with
      | some ip =>
        simp only [hget]
        rw [if_pos (h ip (List.getElem?_mem hget))]
        exact fallback_nil_of_all_used ins pairs rest (i + 1) used h
      | none =>
        simp only [hget]
        exact fallback_nil_of_all_used ins pairs rest (i + 1) used h

theorem map_ports_eq_claim : ∀ (outs ins : List (Nat × PortM)),
    map_ports outs ins = map_ports_claim outs ins
  | [], ins => by cases ins <;> rfl
  | op :: outs, [] => by cases outs <;> rfl
  | [op], i1 :: irest => rfl
  | o1 :: o2 :: orest, i1 :: irest => by
    simp only [map_ports, map_ports_claim]
    split
    · rfl
    · rename_i hguard
      rw [not_lt] at hguard
      have hfb : fallbackPairs (i1 :: irest) (greedy (i1 :: irest) (o1 :: o2 :: orest) []).1
          (o1 :: o2 :: orest) 0 (greedy (i1 :: irest) (o1 :: o2 :: orest) []).2 = [] := by
        rcases Nat.le_total (o1 :: o2 :: orest).length (i1 :: irest).length with hc | hc
        · have hmin : min (o1 :: o2 :: orest).length (i1 :: irest).length
              = (o1 :: o2 :: orest).length := Nat.min_eq_left hc
          rw [hmin] at hguard
          have hle := greedy_pairs_len_le (i1 :: irest) (o1 :: o2 :: orest) []
          have heq : (greedy (i1 :: irest) (o1 :: o2 :: orest) []).1.length
              = (o1 :: o2 :: orest).length := Nat.le_antisymm hle hguard
          refine fallback_nil_of_all_paired _ _ _ _ _ ?_
          intro op hop
          obtain ⟨pr, hpr, he⟩ :=
            greedy_pairs_full (i1 :: irest) (o1 :: o2 :: orest) [] heq op hop
          exact List.any_eq_true.mpr ⟨pr, hpr, decide_eq_true he⟩
        · have hmin : min (o1 :: o2 :: orest).length (i1 :: irest).length
              = (i1 :: irest).length := Nat.min_eq_right hc
          rw [hmin] at hguard
          have hlen := greedy_len (i1 :: irest) (o1 :: o2 :: orest) []
          simp only [List.length_nil, Nat.add_zero] at hlen
          have hnodup := greedy_used_nodup (i1 :: irest) (o1 :: o2 :: orest) [] List.nodup_nil
          have hsubmem := greedy_used_mem (i1 :: irest) (o1 :: o2 :: orest) []
          refine fallback_nil_of_all_used _ _ _ _ _ ?_
          intro ip hip
          set u2 := (greedy (i1 :: irest) (o1 :: o2 :: orest) []).2 with hu2
          have hsubF : u2.toFinset ⊆ ((i1 :: irest).map Prod.fst).toFinset := by
            intro x hx
            rw [List.mem_toFinset] at hx ⊢
            rcases hsubmem x hx with h | h
            · cases h
            · exact h
          have hcard1 : u2.toFinset.card = u2.length := List.toFinset_card_of_nodup hnodup
          have hcard2 : ((i1 :: irest).map Prod.fst).toFinset.card ≤ (i1 :: irest).length := by
            have := List.toFinset_card_le ((i1 :: irest).map Prod.fst)
            simpa using this
          have hcardle : ((i1 :: irest).map Prod.fst).toFinset.card ≤ u2.toFinset.card := by
            rw [hcard1]
            omega
          have hFeq := Finset.eq_of_subset_of_card_le hsubF hcardle
          have hmem2 : ip.1 ∈ u2.toFinset := by
            rw [hFeq, List.mem_toFinset]
            exact List.mem_map_of_mem Prod.fst hip
          rw [List.mem_toFinset] at hmem2
          exact contains_true_iff u2 ip.1 |>.mpr hmem2
      rw [hfb, List.append_nil]

/-- C4: map_ports implements the claimed algorithm: a single output port fans
out to every input port; in general the result equals the claim-worded variant
in which greedy exact-label matching is always followed by positional fallback
for the unpaired output ports (the source's guard on the fallback never changes
the result); and the FL/FR crossed-label example pairs by label, not position. -/
theorem c4_map_ports :
    (∀ (op : Nat × PortM) (ins2 : List (Nat × PortM)),
      map_ports [op] ins2 = ins2.map (fun ip => (op.1, ip.1))) ∧
    (∀ (outs ins : List (Nat × PortM)), map_ports outs ins = map_ports_claim outs ins) ∧
    map_ports
        [(1, { node_id := 10, direction := PortDirectionM.output, channel := "FL" }),
         (2, { node_id := 10, direction := PortDirectionM.output, channel := "FR" })]
        [(11, { node_id := 20, direction := PortDirectionM.input, channel := "FR" }),
         (12, { node_id := 20, direction := PortDirectionM.input, channel := "FL" })]
      = [(1, 12), (2, 11)] := by
  refine ⟨?_, map_ports_eq_claim, by rfl⟩
  intro op ins2
  cases ins2 with
  | nil => rfl
  | cons i1 irest => rfl

/-! C5: default restoration. -/

theorem attempt_no_match (s : StoreM) (r : DefaultRestorationM) (name : String) (target : Nat)
    (hname : r.device_name = name) (htar : r.target_profile_index = target)
    (hnm : ∀ did dev, s.devices.find? (fun kv => decide (kv.2.name = name)) = some (did, dev) →
      dev.current_profile_index ≠ some target) :
    attempt_restoration s r = Except.error "device not found" ∨
      attempt_restoration s r = Except.ok none := by
  unfold attempt_restoration
  rw [hname, htar]
  cases hfind : s.devices.find? (fun kv => decide (kv.2.name = name)) with
  | none => exact Or.inl rfl
  | some dkv =>
    right
    simp [hnm dkv.1 dkv.2 hfind]

theorem pollRound_no_match (s : StoreM) (now : Nat) (name : String) (target : Nat)
    (r : DefaultRestorationM) (hname : r.device_name = name)
    (htar : r.target_profile_index = target)
    (hexp : ¬ (now - r.timestamp > 30)) (hlt : r.attempts < 50)
    (hnm : ∀ did dev, s.devices.find? (fun kv => decide (kv.2.name = name)) = some (did, dev) →
      dev.current_profile_index ≠ some target) :
    pollRound s now [(name, r)] = ([], [(name, { r with attempts := r.attempts + 1 })]) := by
  have hskip : (r.is_expired now || r.max_attempts_reached) = false := by
    simp [DefaultRestorationM.is_expired, DefaultRestorationM.max_attempts_reached, hexp,
      Nat.not_le.mpr hlt]
  have hgp : get_pending_restorations [(name, r)] s now = ([], []) := by
    simp only [get_pending_restorations, List.foldl]
    rw [if_neg (by rw [hskip]; exact Bool.false_ne_true)]
    rcases attempt_no_match s r name target hname htar hnm with h | h <;> rw [h]
  simp only [pollRound, hgp, update_attempts_and_cleanup, mark_completed, cleanup_expired]
  simp [DefaultRestorationM.is_expired, DefaultRestorationM.max_attempts_reached, hexp,
    Nat.not_le.mpr hlt]

theorem pollRound_max (s : StoreM) (now : Nat) (name : String) (r : DefaultRestorationM)
    (hmax : r.attempts ≥ 50) : pollRound s now [(name, r)] = ([], []) := by
  have hm : r.max_attempts_reached = true := by
    simp [DefaultRestorationM.max_attempts_reached, hmax]
  have hgp : get_pending_restorations [(name, r)] s now = ([], []) := by
    simp only [get_pending_restorations, List.foldl]
    rw [if_pos (by rw [hm]; simp)]
  simp only [pollRound, hgp, update_attempts_and_cleanup, mark_completed, cleanup_expired]
  simp [hm]

theorem pollTrace_counts (s : StoreM) (now : Nat) (name : String) (target : Nat)
    (hnm : ∀ did dev, s.devices.find? (fun kv => decide (kv.2.name = name)) = some (did, dev) →
      dev.current_profile_index ≠ some target) :
    ∀ (k : Nat) (r : DefaultRestorationM), r.device_name = name →
      r.target_profile_index = target → ¬ (now - r.timestamp > 30) →
      r.attempts + k = 50 → pollTrace s now (k + 1) [(name, r)] = ([], [])
  | 0, r, _, _, _, hsum => by
    simp only [pollTrace]
    rw [pollRound_max s now name r (by omega)]
    rfl
  | k + 1, r, hname, htar, hexp, hsum => by
    have hstep := pollRound_no_match s now name target r hname htar hexp (by omega) hnm
    have ih := pollTrace_counts s now name target hnm k { r with attempts := r.attempts + 1 }
      hname htar hexp (by show r.attempts + 1 + k = 50; omega)
    rw [show pollTrace s now (k + 1 + 1) [(name, r)]
        = ((pollRound s now [(name, r)]).1
            ++ (pollTrace s now (k + 1) (pollRound s now [(name, r)]).2).1,
          (pollTrace s now (k + 1) (pollRound s now [(name, r)]).2).2) from rfl]
    rw [hstep]
    simp [ih]

/-- C5: a live restoration record with had_default_sink and no source demand
emits exactly one (sink id, 0) instruction and is removed from pending once the
tracked device reaches the target profile and a sink node of that device
exists; and when the profile never matches, 51 polling rounds exhaust the 50
allowed attempts and drop the record without ever emitting an instruction. -/
theorem c5_pending_restorations (s : StoreM) (now : Nat) (r : DefaultRestorationM) :
    (∀ did dev, r.had_default_sink = true → r.had_default_source = false →
      ¬ (now - r.timestamp > 30) → r.attempts < 50 →
      s.devices.find? (fun kv => decide (kv.2.name = r.device_name)) = some (did, dev) →
      dev.current_profile_index = some r.target_profile_index →
      (∃ kv ∈ s.nodes, (decide (kv.2.device_id = some did) &&
        decide (kv.2.node_type = NodeTypeM.audioSink)) = true) →
      ∃ sid snode, (sid, snode) ∈ s.nodes ∧ snode.device_id = some did ∧
        snode.node_type = NodeTypeM.audioSink ∧
        pollRound s now [(r.device_name, r)] = ([(sid, 0)], [])) ∧
    (r.attempts = 0 → ¬ (now - r.timestamp > 30) →
      (∀ did dev, s.devices.find? (fun kv => decide (kv.2.name = r.device_name))
          = some (did, dev) → dev.current_profile_index ≠ some r.target_profile_index) →
      pollTrace s now 51 [(r.device_name, r)] = ([], [])) := by
  constructor
  · intro did dev hsink hsrc hexp hatt hdev hprof hex
    obtain ⟨kv0, hkv0, hkv0p⟩ := hex
    have hany : (s.nodes.any (fun kv => decide (kv.2.device_id = some did))) = true := by
      simp only [Bool.and_eq_true] at hkv0p
      exact List.any_eq_true.mpr ⟨kv0, hkv0, hkv0p.1⟩
    have hfindS : (s.nodes.find? (fun kv => decide (kv.2.device_id = some did) &&
        decide (kv.2.node_type = NodeTypeM.audioSink))).isSome = true := by
      rw [List.find?_isSome]
      exact ⟨kv0, hkv0, hkv0p⟩
    obtain ⟨skv, hskv⟩ := Option.isSome_iff_exists.mp hfindS
    have hskvp := List.find?_some hskv
    simp only [Bool.and_eq_true, decide_eq_true_eq] at hskvp
    have hattempt : attempt_restoration s r = Except.ok (some ([skv.1], [])) := by
      simp only [attempt_restoration, hdev, hprof, hany, hskv, hsink, hsrc]
      simp
    have hskip : (r.is_expired now || r.max_attempts_reached) = false := by
      simp [DefaultRestorationM.is_expired, DefaultRestorationM.max_attempts_reached, hexp,
        Nat.not_le.mpr hatt]
    have hgp : get_pending_restorations [(r.device_name, r)] s now
        = ([(skv.1, 0)], [r.device_name]) := by
      simp only [get_pending_restorations, List.foldl]
      rw [if_neg (by rw [hskip]; exact Bool.false_ne_true)]
      rw [hattempt]
      rfl
    refine ⟨skv.1, skv.2, List.mem_of_find?_eq_some hskv, hskvp.1, hskvp.2, ?_⟩
    simp only [pollRound, hgp, update_attempts_and_cleanup, mark_completed, cleanup_expired]
    simp [DefaultRestorationM.is_expired, DefaultRestorationM.max_attempts_reached, hexp,
      Nat.not_le.mpr hatt]
  · intro hzero hexp hnm
    have h2 := pollTrace_counts s now r.device_name r.target_profile_index hnm 50 r
      rfl rfl hexp (by omega)
    exact h2

/-- C5 witness: the theorem applied to concrete stores, once with the profile
matching (one (7, 0) instruction, record completed) and once with a
never-matching profile (51 rounds, no instruction, record dropped). -/
theorem c5_pending_restorations_witness :
    (∃ sid snode, (sid, snode) ∈ c5Store.nodes ∧ snode.device_id = some 2 ∧
      snode.node_type = NodeTypeM.audioSink ∧
      pollRound c5Store 100 [("USB Headset", c5Rec)] = ([(sid, 0)], [])) ∧
    pollTrace c5StoreBad 100 51 [("USB Headset", c5RecZ)] = ([], []) := by
  constructor
  · exact (c5_pending_restorations c5Store 100 c5Rec).1 2 c5Device rfl rfl
      (by decide) (by decide) rfl rfl
      ⟨(7, c5Node), List.mem_singleton.mpr rfl, by decide⟩
  · refine (c5_pending_restorations c5StoreBad 100 c5RecZ).2 rfl (by decide) ?_
    intro did dev h
    have h2 : some ((2 : Nat), c5BadDevice) = some (did, dev) := h
    injection h2 with h3
    injection h3 with h4 h5
    intro hc
    rw [← h5] at hc
    exact absurd hc (by decide)

/-! C6: create_link and already-existing port pairs. -/

theorem map_ports_nil_left (ins : List (Nat × PortM)) : map_ports [] ins = [] := by
  cases ins <;> rfl

theorem map_ports_nil_right (outs : List (Nat × PortM)) : map_ports outs [] = [] := by
  cases outs with
  | nil => rfl
  | cons o rest => cases rest <;> rfl

/-- C6 counterexample: when every mapped pair already has a link, create_link
returns an error, so the call can fail merely because the requested pair
already exists. -/
theorem c6_counterexample :
    create_link c6Store 1 2 = Except.error "no new links were created" := by
  rfl

/-- C6 (amended): a mapped pair whose link already exists is skipped (never in
the created set, and never by itself an error) and the call succeeds whenever
at least one mapped pair is new, returning exactly the new pairs; but when all
mapped pairs already exist, the call returns the "no new links were created"
error rather than succeeding as a no-op. -/
theorem c6_create_link :
    (∀ (s : StoreM) (o i : Nat) (created : List (Nat × Nat)),
      create_link s o i = Except.ok created →
      (∀ pr ∈ created, linkExists s pr = false) ∧ created ≠ []) ∧
    (∀ (s : StoreM) (o i : Nat) (onode inode : NodeM),
      mlookup o s.nodes = some onode → mlookup i s.nodes = some inode →
      (∃ pr ∈ map_ports (portsOf s onode PortDirectionM.output)
          (portsOf s inode PortDirectionM.input), linkExists s pr = false) →
      create_link s o i = Except.ok
        ((map_ports (portsOf s onode PortDirectionM.output)
          (portsOf s inode PortDirectionM.input)).filter (fun pr => !linkExists s pr))) := by
  constructor
  · intro s o i created hok
    simp only [create_link] at hok
    split at hok
    · cases hok
    · split at hok
      · cases hok
      · split at hok
        · cases hok
        · split at hok
          · cases hok
          · split at hok
            · cases hok
            · split at hok
              · cases hok
              · rename_i hne
                injection hok with he
                subst he
                constructor
                · intro pr hpr
                  have h2 := List.of_mem_filter hpr
                  simpa using h2
                · intro hc
                  rw [hc] at hne
                  exact hne rfl
  · intro s o i onode inode ho hi hex
    obtain ⟨pr, hpr, hnew⟩ := hex
    have hOP : ¬ ((portsOf s onode PortDirectionM.output).isEmpty = true) := by
      intro hc
      rw [List.isEmpty_iff] at hc
      rw [hc, map_ports_nil_left] at hpr
      exact List.not_mem_nil pr hpr
    have hIP : ¬ ((portsOf s inode PortDirectionM.input).isEmpty = true) := by
      intro hc
      rw [List.isEmpty_iff] at hc
      rw [hc, map_ports_nil_right] at hpr
      exact List.not_mem_nil pr hpr
    have hPP : ¬ ((map_ports (portsOf s onode PortDirectionM.output)
        (portsOf s inode PortDirectionM.input)).isEmpty = true) := by
      intro hc
      rw [List.isEmpty_iff] at hc
      rw [hc] at hpr
      exact List.not_mem_nil pr hpr
    have hCR : ¬ (((map_ports (portsOf s onode PortDirectionM.output)
        (portsOf s inode PortDirectionM.input)).filter
          (fun pr => !linkExists s pr)).isEmpty = true) := by
      intro hc
      rw [List.isEmpty_iff] at hc
      have hmem : pr ∈ (map_ports (portsOf s onode PortDirectionM.output)
          (portsOf s inode PortDirectionM.input)).filter (fun pr => !linkExists s pr) :=
        List.mem_filter.mpr ⟨hpr, by rw [hnew]; rfl⟩
      rw [hc] at hmem
      exact List.not_mem_nil pr hmem
    simp only [create_link, ho, hi]
    rw [if_neg hOP, if_neg hIP, if_neg hPP, if_neg hCR]

/-- C6 witness: with pair (5, 6) already linked and pair (5, 8) new, the call
succeeds and creates exactly the new pair; the theorem also certifies that no
created pair pre-existed. -/
theorem c6_create_link_witness :
    create_link c6Store2 1 2 = Except.ok [(5, 8)] ∧
      (∀ pr ∈ [((5 : Nat), (8 : Nat))], linkExists c6Store2 pr = false) :=
  ⟨(c6_create_link.2 c6Store2 1 2 { name := "outn", ports := [5] }
      { name := "inn", ports := [6, 8] } rfl rfl ⟨(5, 8), by decide, by decide⟩),
    fun pr hpr =>
      ((c6_create_link.1 c6Store2 1 2 [(5, 8)]
        (c6_create_link.2 c6Store2 1 2 { name := "outn", ports := [5] }
          { name := "inn", ports := [6, 8] } rfl rfl ⟨(5, 8), by decide, by decide⟩)).1
        pr hpr)⟩

end Pwmenu
